import Mathlib

/-!
Verification of the field-mapping and ticket-construction pipeline of the
`createtask` webhook service (src/field_mapper.py, src/webhook_service.py,
src/config.py), as a shallow embedding in Lean 4.

JSON-decoded Python values are embedded as the inductive `Value`; Python
dicts are embedded as association lists in insertion order (Python dicts
preserve insertion order and the code iterates over them in that order).
Python exceptions are embedded as `Except PyErr`.
-/

namespace CreateTask

/-- A JSON-decoded Python value as it flows through the pipeline:
`None`, `bool`, numbers (the claims only exercise integers), `str`,
`list`, and `dict` (association list in insertion order). -/
inductive Value where
  | vnull : Value
  | vbool : Bool → Value
  | vint : Int → Value
  | vstr : String → Value
  | vlist : List Value → Value
  | vdict : List (String × Value) → Value

/-- The skip test `value is None or value == ""` opening both mapper
loops. -/
def isSkipValue : Value → Bool
  | .vnull => true
  | .vstr s => s = ""
  | _ => false

/-! ### String primitives

Python's `str.strip`, `str.lower`, `str.upper`, `startswith`, `endswith`,
`split` and substring containment are embedded as structural functions on
the character list of a `String` (ASCII case folding; the data crossing
this pipeline is ASCII-or-CJK, which neither Python nor this model case
folds differently). -/

/-- The whitespace class of Python `str.strip()` (ASCII part). -/
def isPySpace (c : Char) : Bool :=
  c = ' ' || c = '\t' || c = '\n' || c = '\r' || c = '\x0b' || c = '\x0c'

/-- Python `s.strip()`. -/
def pyStrip (s : String) : String :=
  String.mk (((s.data.dropWhile isPySpace).reverse.dropWhile
    isPySpace).reverse)

/-- ASCII lower-casing of one character. -/
def lowerChar (c : Char) : Char :=
  if 'A' ≤ c ∧ c ≤ 'Z' then Char.ofNat (c.toNat + 32) else c

/-- ASCII upper-casing of one character. -/
def upperChar (c : Char) : Char :=
  if 'a' ≤ c ∧ c ≤ 'z' then Char.ofNat (c.toNat - 32) else c

/-- Python `s.lower()`. -/
def pyLower (s : String) : String :=
  String.mk (s.data.map lowerChar)

/-- Python `s.upper()`. -/
def pyUpper (s : String) : String :=
  String.mk (s.data.map upperChar)

/-- Python `s.startswith(pre)`. -/
def strStartsWith (s pre : String) : Bool :=
  List.isPrefixOf pre.data s.data

/-- Python `s.endswith(suf)`. -/
def strEndsWith (s suf : String) : Bool :=
  List.isPrefixOf suf.data.reverse s.data.reverse

/-- Python `s.split('?')[0]`: everything before the first `?`. -/
def beforeQuery (s : String) : String :=
  String.mk (s.data.takeWhile (fun c => c ≠ '?'))

/-- Substring containment on character lists (`pat in s` for a nonempty
pattern). -/
def listContainsSub : List Char → List Char → Bool
  | s, pat =>
    if List.isPrefixOf pat s then true
    else
      match s with
      | [] => false
      | _ :: rest => listContainsSub rest pat

/-- Python `pat in s` substring containment. -/
def strContains (s pat : String) : Bool :=
  listContainsSub s.data pat.data

/-- Python truthiness (`bool(v)`) for embedded values. -/
def pyTruthy : Value → Bool
  | .vnull => false
  | .vbool b => b
  | .vint n => n != 0
  | .vstr s => s != ""
  | .vlist xs => !xs.isEmpty
  | .vdict d => !d.isEmpty

mutual

/-- Python `repr()` for embedded values (strings quoted). -/
def pyRepr : Value → String
  | .vnull => "None"
  | .vbool true => "True"
  | .vbool false => "False"
  | .vint n => toString n
  | .vstr s => "'" ++ s ++ "'"
  | .vlist xs => "[" ++ String.intercalate ", " (pyReprList xs) ++ "]"
  | .vdict d => "\x7b" ++ String.intercalate ", " (pyReprDict d) ++ "\x7d"

def pyReprList : List Value → List String
  | [] => []
  | v :: vs => pyRepr v :: pyReprList vs

def pyReprDict : List (String × Value) → List String
  | [] => []
  | (k, v) :: ps => ("'" ++ k ++ "': " ++ pyRepr v) :: pyReprDict ps

end

/-- Python `str()` for embedded values: identity on strings, `repr`-style
otherwise. -/
def pyStr : Value → String
  | .vstr s => s
  | v => pyRepr v

/-- Python `x or y` on values (first operand if truthy, else second). -/
def pyOr (a b : Value) : Value :=
  if pyTruthy a then a else b

/-- `d.get(k)` / `d[k]` lookup on an association-list dict (first match). -/
def alookup {α : Type} : List (String × α) → String → Option α
  | [], _ => none
  | (k, v) :: ps, k' => if k = k' then some v else alookup ps k'

/-- `k in d` membership test. -/
def acontains {α : Type} (d : List (String × α)) (k : String) : Bool :=
  (alookup d k).isSome

/-- `d.get(k, default)`: the stored value when the key is present (even if
falsy), the default otherwise. -/
def pyGetD (d : List (String × Value)) (k : String) (dflt : Value) : Value :=
  match alookup d k with
  | some v => v
  | none => dflt

/-- `d[k] = v` assignment: replaces the binding in place when the key is
present, appends otherwise (Python dicts keep the original insertion
position; dict keys are unique, so replacing the first binding is the
dict semantics). -/
def aset {α : Type} : List (String × α) → String → α → List (String × α)
  | [], k, v => [(k, v)]
  | (k0, v0) :: d, k, v =>
    if k0 = k then (k, v) :: d else (k0, v0) :: aset d k v

/-- `d.pop(k, None)` for every key in `ks`, i.e. removal of those keys. -/
def apopAll {α : Type} (d : List (String × α)) (ks : List String) :
    List (String × α) :=
  d.filter (fun p => !(ks.contains p.1))

/-- Number of entries stored under key `k`. -/
def countKey {α : Type} (d : List (String × α)) (k : String) : Nat :=
  (d.filter (fun p => p.1 = k)).length

/-- A raised Python exception: `ValueError` (validation) is distinguished
because `_create_story`/`_create_bug` catch it separately. -/
inductive PyErr where
  | valueError : String → PyErr
  | otherError : String → PyErr

/-! ## Vocabulary tables (src/config.py, `FieldMappingConfig`,
`WorkitemTypeMapping`) -/

/-- `FieldMappingConfig.priority_mapping`. -/
def priority_mapping : List (String × String) :=
  [("紧急", "urgent"), ("高", "high"), ("中", "middle"), ("低", "low"),
   ("无关紧要", "insignificant"),
   ("1", "urgent"), ("2", "high"), ("3", "middle"), ("4", "low")]

/-- `FieldMappingConfig.severity_mapping`. -/
def severity_mapping : List (String × String) :=
  [("致命", "fatal"), ("严重", "serious"), ("一般", "general"),
   ("提示", "prompt"), ("建议", "advice")]

/-- `FieldMappingConfig.story_field_mapping`. -/
def story_field_mapping : List (String × String) :=
  [("标题", "name"), ("名称", "name"), ("需求名称", "name"),
   ("描述", "description"), ("详细描述", "description"),
   ("处理人", "owner"), ("负责人", "owner"), ("创建人", "creator"),
   ("优先级", "priority_label"),
   ("标签类型", "label"), ("标签", "label"),
   ("需求类别", "workitem_type_id"),
   ("迭代", "iteration_id"), ("版本", "version"), ("模块", "module"),
   ("预计开始", "begin"), ("预计结束", "due"),
   ("图片", "_images"), ("截图", "_images"), ("附件图片", "_images")]

/-- `FieldMappingConfig.bug_field_mapping`. -/
def bug_field_mapping : List (String × String) :=
  [("标题", "title"), ("缺陷标题", "title"),
   ("描述", "description"), ("详细描述", "description"),
   ("处理人", "current_owner"), ("负责人", "current_owner"),
   ("当前处理人", "current_owner"),
   ("创建人", "reporter"), ("报告人", "reporter"),
   ("优先级", "priority_label"), ("严重程度", "severity"),
   ("标签", "label"), ("迭代", "iteration_id"),
   ("版本", "version_report"), ("发现版本", "version_report"),
   ("模块", "module"), ("预计开始", "begin"), ("预计结束", "due"),
   ("图片", "_images"), ("截图", "_images"), ("附件图片", "_images")]

/-- `WorkitemTypeMapping.label_to_type_id`. -/
def label_to_type_id : List (String × String) :=
  [("FX", "1141827997001001460"), ("PREFAB", "1141827997001001459"),
   ("DD", "1141827997001001453"), ("QA", "1141827997001001452"),
   ("UI", "1141827997001001451"), ("DIRECTOR", "1141827997001001450"),
   ("WRITER", "1141827997001001449"), ("Audio", "1141827997001001442"),
   ("AUDIO", "1141827997001001442"), ("CG", "1141827997001001441"),
   ("ARTS", "1141827997001001440"), ("ASSET", "1141827997001001439"),
   ("EXCEL", "1141827997001001438"), ("Program", "1141827997001001437"),
   ("PROGRAM", "1141827997001001437"), ("FEATURE", "1141827997001001436"),
   ("Epic", "1141827997001001435")]

/-- `WorkitemTypeMapping.get_type_id`: exact match, then upper-cased match. -/
def get_type_id (label : String) : Option String :=
  if label = "" then none
  else match alookup label_to_type_id label with
    | some t => some t
    | none => alookup label_to_type_id (pyUpper label)

/-! ## FieldMapper value-level helpers (src/field_mapper.py) -/

/-- `FieldMapper._map_priority`: trim, exact table match, else pass the
trimmed value through. -/
def map_priority (value : String) : String :=
  match alookup priority_mapping (pyStrip value) with
  | some t => t
  | none => pyStrip value

/-- `FieldMapper._map_severity`: trim, exact table match, else pass the
trimmed value through. -/
def map_severity (value : String) : String :=
  match alookup severity_mapping (pyStrip value) with
  | some t => t
  | none => pyStrip value

/-- The image extension tuple of `FieldMapper._is_image_url`. -/
def image_extensions : List String :=
  [".png", ".jpg", ".jpeg", ".gif", ".bmp", ".webp", ".svg"]

/-- `FieldMapper._is_image_url`: scheme check, then extension or `image`
substring test on the lower-cased URL with the query string stripped. -/
def is_image_url (url : String) : Bool :=
  if !(strStartsWith url "http://" || strStartsWith url "https://") then
    false
  else
    let lower_url := beforeQuery (pyLower url)
    image_extensions.any (fun ext => strEndsWith lower_url ext) ||
      strContains lower_url "image"

/-- Separator class of `re.split(r'[,\n;]+', value)`. -/
def isSep (c : Char) : Bool :=
  c = ',' || c = '\n' || c = ';'

mutual

/-- Piece accumulator of `re.split(r'[,\n;]+', s)`: collect the current
piece until a separator. -/
def splitSepsGo : List Char → List Char → List String
  | [], acc => [String.mk acc.reverse]
  | c :: rest, acc =>
    if isSep c then String.mk acc.reverse :: splitSepsRun rest
    else splitSepsGo rest (c :: acc)

/-- Separator-run skipper of `re.split(r'[,\n;]+', s)`: a maximal run of
separators forms one boundary. -/
def splitSepsRun : List Char → List String
  | [] => [""]
  | c :: rest =>
    if isSep c then splitSepsRun rest
    else splitSepsGo rest [c]

end

/-- `re.split(r'[,\n;]+', s)`: split on maximal runs of separators,
keeping leading/trailing empty pieces. -/
def splitSeps (s : String) : List String :=
  splitSepsGo s.data []

/-- The message of the `AttributeError` raised when `_is_image_url` is
called on a truthy non-string attachment value. -/
def attrError : PyErr :=
  PyErr.otherError "AttributeError: object has no attribute startswith"

/-- `if url and self._is_image_url(url): urls.append(url)` applied to a
resolved attachment value already known to be truthy: keep a string iff it
passes the predicate; `_is_image_url` on a truthy non-string raises
`AttributeError`. -/
def keepResolved (url : Value) : Except PyErr (List String) :=
  match url with
  | .vstr s => .ok (if is_image_url s then [s] else [])
  | _ => .error attrError

/-- The attachment-dict arm of `FieldMapper._extract_image_urls`:
`value.get('url') or value.get('file_url') or value.get('src')`, then
keep the value when it is truthy and passes the image-URL predicate. -/
def extractFromAttachment (d : List (String × Value)) :
    Except PyErr (List String) :=
  let url := pyOr (pyOr (pyGetD d "url" Value.vnull)
      (pyGetD d "file_url" Value.vnull))
    (pyGetD d "src" Value.vnull)
  if pyTruthy url then keepResolved url
  else .ok []

/-- The list arm of `FieldMapper._extract_image_urls`: strings are kept
when they pass the predicate, dicts go through the attachment resolution,
anything else is skipped. -/
def extractFromList : List Value → Except PyErr (List String)
  | [] => .ok []
  | item :: rest => do
    let here ←
      match item with
      | .vstr s => pure (if is_image_url s then [s] else [])
      | .vdict d => extractFromAttachment d
      | _ => pure ([] : List String)
    let there ← extractFromList rest
    pure (here ++ there)

/-- The per-piece step of the string arm of `_extract_image_urls`:
`url = part.strip(); if url and self._is_image_url(url): urls.append(url)`. -/
def keepPiece (part : String) : Option String :=
  let url := pyStrip part
  if url != "" && is_image_url url then some url else none

/-- `FieldMapper._extract_image_urls`. -/
def extract_image_urls : Value → Except PyErr (List String)
  | .vstr s => .ok ((splitSeps s).filterMap keepPiece)
  | .vlist xs => extractFromList xs
  | .vdict d => extractFromAttachment d
  | _ => .ok []

/-- `FieldMapper._clean_value`. -/
def clean_value : Value → String
  | .vstr s => pyStrip s
  | .vint n => toString n
  | .vlist [x] => pyStrip (pyStr x)
  | .vlist xs =>
    String.intercalate "|" ((xs.filter pyTruthy).map fun v => pyStrip (pyStr v))
  | v => pyStr v

/-! ## FieldMapper record loops (src/field_mapper.py, `map_story_fields`
and `map_bug_fields`) -/

/-- The allow-list of native TAPD story field names accepted verbatim. -/
def story_passthrough : List String :=
  ["name", "description", "owner", "priority", "priority_label",
   "iteration_id", "workitem_type_id", "module", "version", "label",
   "begin", "due"]

/-- The allow-list of native TAPD bug field names accepted verbatim. -/
def bug_passthrough : List String :=
  ["title", "description", "current_owner", "priority", "priority_label",
   "severity", "iteration_id", "module", "version_report", "label",
   "begin", "due"]

/-- Target-key resolution of `map_story_fields`: the field-name table,
then the allow-list of native TAPD story field names. -/
def resolveStoryField (feishu_field : String) : Option String :=
  match alookup story_field_mapping feishu_field with
  | some tf => some tf
  | none =>
    if story_passthrough.contains feishu_field then some feishu_field
    else none

/-- Target-key resolution of `map_bug_fields`. -/
def resolveBugField (feishu_field : String) : Option String :=
  match alookup bug_field_mapping feishu_field with
  | some tf => some tf
  | none =>
    if bug_passthrough.contains feishu_field then some feishu_field
    else none

/-- The `标签类型`/`需求类别` interception of `map_story_fields`: resolve a
category identifier (stored under `workitem_type_id` when found) and also
store the raw label under `label` unless one is already set. -/
def storyCategoryStep (tapd : List (String × String)) (label : String) :
    List (String × String) :=
  let tapd :=
    match get_type_id label with
    | some type_id => aset tapd "workitem_type_id" type_id
    | none => tapd
  if !(acontains tapd "label") then aset tapd "label" label
  else tapd

/-- The loop body of `FieldMapper.map_story_fields`, iterating over the
record entries in insertion order with the accumulated TAPD fields and
image URLs. -/
def mapStoryGo : List (String × Value) → List (String × String) →
    List String → Except PyErr (List (String × String) × List String)
  | [], tapd, imgs => .ok (tapd, imgs)
  | (feishu_field, value) :: rest, tapd, imgs =>
    if isSkipValue value then
      mapStoryGo rest tapd imgs
    else
      match resolveStoryField feishu_field with
      | none => mapStoryGo rest tapd imgs
      | some tapd_field =>
        if tapd_field = "_images" then
          match extract_image_urls value with
          | .error e => .error e
          | .ok urls => mapStoryGo rest tapd (imgs ++ urls)
        else
          let value :=
            if tapd_field = "priority" || tapd_field = "priority_label" then
              Value.vstr (map_priority (pyStr value))
            else value
          if feishu_field = "标签类型" || feishu_field = "需求类别" then
            mapStoryGo rest (storyCategoryStep tapd (pyStr value)) imgs
          else
            mapStoryGo rest (aset tapd tapd_field (clean_value value)) imgs

/-- `FieldMapper.map_story_fields`. -/
def map_story_fields (feishu_data : List (String × Value)) :
    Except PyErr (List (String × String) × List String) :=
  mapStoryGo feishu_data [] []

/-- The loop body of `FieldMapper.map_bug_fields`. -/
def mapBugGo : List (String × Value) → List (String × String) →
    List String → Except PyErr (List (String × String) × List String)
  | [], tapd, imgs => .ok (tapd, imgs)
  | (feishu_field, value) :: rest, tapd, imgs =>
    if isSkipValue value then
      mapBugGo rest tapd imgs
    else
      match resolveBugField feishu_field with
      | none => mapBugGo rest tapd imgs
      | some tapd_field =>
        if tapd_field = "_images" then
          match extract_image_urls value with
          | .error e => .error e
          | .ok urls => mapBugGo rest tapd (imgs ++ urls)
        else
          let value :=
            if tapd_field = "priority" || tapd_field = "priority_label" then
              Value.vstr (map_priority (pyStr value))
            else value
          let value :=
            if tapd_field = "severity" then
              Value.vstr (map_severity (pyStr value))
            else value
          mapBugGo rest (aset tapd tapd_field (clean_value value)) imgs

/-- `FieldMapper.map_bug_fields`. -/
def map_bug_fields (feishu_data : List (String × Value)) :
    Except PyErr (List (String × String) × List String) :=
  mapBugGo feishu_data [] []

/-! ## TicketBuilder (src/field_mapper.py) -/

/-- `TicketBuilder._images_to_html` with the default 800px width. -/
def images_to_html (image_urls : List String) : String :=
  if image_urls.isEmpty then ""
  else
    String.intercalate "<br/>" (image_urls.enum.map fun p =>
      let i := p.1 + 1
      "<p>图片" ++ toString i ++ ":</p><img src=\"" ++ p.2 ++
        "\" alt=\"图片" ++ toString i ++ "\" style=\"max-width: 800px;\" />")

/-- The `ValueError` message of `TicketBuilder.build_story`. -/
def title_error_story : String := "需求单必须包含标题(name)字段"

/-- The `ValueError` message of `TicketBuilder.build_bug`. -/
def title_error_bug : String := "缺陷单必须包含标题(title)字段"

/-- `TicketBuilder.build_story`: map, check the mandatory `name`, inject
the configured workspace id, optionally embed images in the description. -/
def build_story (workspace_id : String) (feishu_data : List (String × Value))
    (include_images_in_description : Bool) :
    Except PyErr (List (String × String) × List String) :=
  match map_story_fields feishu_data with
  | .error e => .error e
  | .ok (tapd0, image_urls) =>
    if (alookup tapd0 "name").isNone ∨ alookup tapd0 "name" = some "" then
      .error (.valueError title_error_story)
    else
      let tapd1 := aset tapd0 "workspace_id" workspace_id
      let tapd2 :=
        if include_images_in_description && !image_urls.isEmpty then
          let description := (alookup tapd1 "description").getD ""
          let img_html := images_to_html image_urls
          if description ≠ "" then
            aset tapd1 "description" (description ++ "<br/><br/>" ++ img_html)
          else
            aset tapd1 "description" img_html
        else tapd1
      .ok (tapd2, image_urls)

/-- `TicketBuilder.build_bug`: map, check the mandatory `title`, inject
the configured workspace id, optionally embed images in the description. -/
def build_bug (workspace_id : String) (feishu_data : List (String × Value))
    (include_images_in_description : Bool) :
    Except PyErr (List (String × String) × List String) :=
  match map_bug_fields feishu_data with
  | .error e => .error e
  | .ok (tapd0, image_urls) =>
    if (alookup tapd0 "title").isNone ∨ alookup tapd0 "title" = some "" then
      .error (.valueError title_error_bug)
    else
      let tapd1 := aset tapd0 "workspace_id" workspace_id
      let tapd2 :=
        if include_images_in_description && !image_urls.isEmpty then
          let description := (alookup tapd1 "description").getD ""
          let img_html := images_to_html image_urls
          if description ≠ "" then
            aset tapd1 "description" (description ++ "<br/><br/>" ++ img_html)
          else
            aset tapd1 "description" img_html
        else tapd1
      .ok (tapd2, image_urls)

/-! ## Request classifier (src/webhook_service.py,
`FeishuWebhookHandler.parse_feishu_request`) -/

def story_synonyms : List String := ["story", "需求", "需求单", "requirement"]
def bug_synonyms : List String := ["bug", "缺陷", "缺陷单", "defect"]
def task_synonyms : List String := ["task", "任务", "任务单"]

/-- The type-hint keys popped from the working record. -/
def hint_fields : List String := ["ticket_type", "type", "类型"]

/-- The hint-normalization part of `parse_feishu_request`:
`str(ticket_type).lower()` against the synonym lists, with the title-based
heuristic for unrecognized hints. -/
def classify_hint (hint : Value) (record : List (String × Value)) : String :=
  let tl := pyLower (pyStr hint)
  if story_synonyms.contains tl then "story"
  else if bug_synonyms.contains tl then "bug"
  else if task_synonyms.contains tl then "task"
  else if acontains record "标题" || acontains record "title" then "bug"
  else "story"

/-- `FeishuWebhookHandler.parse_feishu_request`. The Python function
mutates the record it unwraps (it pops the hint keys in place, so an
enclosing envelope sees the stripped record through aliasing); the
embedding returns `(ticket_type, record_data, body after the call)`.
`none` models the unhandled exception raised when an envelope's `record`
value is not a dict (`pop`/`in` on a non-dict raises). -/
def parse_feishu_request (body : List (String × Value)) :
    Option (String × List (String × Value) × List (String × Value)) :=
  match alookup body "record" with
  | some (Value.vdict record0) =>
    let hint := pyGetD body "ticket_type" (pyGetD body "type" (Value.vstr "story"))
    let t := classify_hint hint record0
    let record1 := apopAll record0 hint_fields
    some (t, record1, aset body "record" (Value.vdict record1))
  | some _ => none
  | none =>
    let hint := pyGetD body "ticket_type"
      (pyGetD body "type" (pyGetD body "类型" (Value.vstr "story")))
    let t := classify_hint hint body
    let record1 := apopAll body hint_fields
    some (t, record1, record1)

/-! ## Orchestration (src/webhook_service.py). The TAPD HTTP client is an
external collaborator; it is embedded as a submission oracle the
orchestration functions are parameterized by. An `Except.error` oracle
result models an exception raised by the client. -/

/-- Submission oracle: `TapdClient.create_story` / `create_bug` (returns
the decoded API response dict). -/
def Submit : Type :=
  List (String × String) → Except String (List (String × Value))

/-- Submission oracle for `TapdClient.create_task` (name, description,
owner). -/
def SubmitTask : Type :=
  Value → Value → Value → Except String (List (String × Value))

/-- The relevant part of the injected configuration
(`TapdConfig.workspace_id`, `TapdConfig.web_base_url`). -/
structure TapdConf where
  workspace_id : String
  web_base_url : String

/-- `TapdConfig.get_story_url`. -/
def get_story_url (cfg : TapdConf) (story_id : String) : String :=
  cfg.web_base_url ++ "/" ++ cfg.workspace_id ++ "/prong/stories/view/" ++
    story_id

/-- `TapdConfig.get_bug_url`. -/
def get_bug_url (cfg : TapdConf) (bug_id : String) : String :=
  cfg.web_base_url ++ "/" ++ cfg.workspace_id ++ "/bugtrace/bugs/view/" ++
    bug_id

/-- The task URL template inlined in `_create_task`. -/
def get_task_url (cfg : TapdConf) (task_id : String) : String :=
  cfg.web_base_url ++ "/" ++ cfg.workspace_id ++ "/prong/tasks/view/" ++
    task_id

/-- `CreateTicketResult` (webhook_service.py dataclass). -/
structure CreateTicketResult where
  success : Bool
  ticket_id : Option Value := none
  ticket_url : Option String := none
  ticket_type : Option String := none
  error_message : Option String := none
  raw_response : Option (List (String × Value)) := none

/-- `FeishuWebhookHandler._create_story`: build, submit, wrap the result;
`ValueError` from the builder becomes a validation failure, any other
exception a generic failure. -/
def create_story_op (submit : Submit) (cfg : TapdConf)
    (record_data : List (String × Value)) : CreateTicketResult :=
  match build_story cfg.workspace_id record_data true with
  | .error (.valueError m) =>
    { success := false, error_message := some ("数据验证失败: " ++ m) }
  | .error (.otherError m) =>
    { success := false, error_message := some ("创建需求失败: " ++ m) }
  | .ok (tapd_fields, _) =>
    match submit tapd_fields with
    | .error m =>
      { success := false, error_message := some ("创建需求失败: " ++ m) }
    | .ok result =>
      let story_id := pyGetD result "id" Value.vnull
      if pyTruthy story_id then
        { success := true, ticket_id := some story_id,
          ticket_url := some (get_story_url cfg (pyStr story_id)),
          ticket_type := some "story", raw_response := some result }
      else
        { success := false,
          error_message := some "API返回成功但未获取到工单ID",
          raw_response := some result }

/-- `FeishuWebhookHandler._create_bug`. -/
def create_bug_op (submit : Submit) (cfg : TapdConf)
    (record_data : List (String × Value)) : CreateTicketResult :=
  match build_bug cfg.workspace_id record_data true with
  | .error (.valueError m) =>
    { success := false, error_message := some ("数据验证失败: " ++ m) }
  | .error (.otherError m) =>
    { success := false, error_message := some ("创建缺陷失败: " ++ m) }
  | .ok (tapd_fields, _) =>
    match submit tapd_fields with
    | .error m =>
      { success := false, error_message := some ("创建缺陷失败: " ++ m) }
    | .ok result =>
      let bug_id := pyGetD result "id" Value.vnull
      if pyTruthy bug_id then
        { success := true, ticket_id := some bug_id,
          ticket_url := some (get_bug_url cfg (pyStr bug_id)),
          ticket_type := some "bug", raw_response := some result }
      else
        { success := false,
          error_message := some "API返回成功但未获取到工单ID",
          raw_response := some result }

/-- `FeishuWebhookHandler._create_task` (reduced best-effort path). -/
def create_task_op (submit : SubmitTask) (cfg : TapdConf)
    (record_data : List (String × Value)) : CreateTicketResult :=
  let name := pyOr (pyGetD record_data "标题" Value.vnull)
    (pyOr (pyGetD record_data "名称" Value.vnull)
      (pyGetD record_data "name" (Value.vstr "")))
  let description := pyOr (pyGetD record_data "描述" Value.vnull)
    (pyGetD record_data "description" (Value.vstr ""))
  let owner := pyOr (pyGetD record_data "处理人" Value.vnull)
    (pyGetD record_data "owner" (Value.vstr ""))
  match submit name description owner with
  | .error m =>
    { success := false, error_message := some ("创建任务失败: " ++ m) }
  | .ok result =>
    let task_id := pyGetD result "id" Value.vnull
    if pyTruthy task_id then
      { success := true, ticket_id := some task_id,
        ticket_url := some (get_task_url cfg (pyStr task_id)),
        ticket_type := some "task", raw_response := some result }
    else
      { success := false,
        error_message := some "API返回成功但未获取到工单ID",
        raw_response := some result }

/-- `FeishuWebhookHandler.create_ticket`: dispatch on the ticket type. -/
def create_ticket (submitS submitB : Submit) (submitT : SubmitTask)
    (cfg : TapdConf) (t : String) (record_data : List (String × Value)) :
    CreateTicketResult :=
  if t = "story" then create_story_op submitS cfg record_data
  else if t = "bug" then create_bug_op submitB cfg record_data
  else if t = "task" then create_task_op submitT cfg record_data
  else { success := false, error_message := some ("不支持的工单类型: " ++ t) }

/-- `FeishuWebhookHandler.handle_challenge`: answer the URL-verification
handshake with the same challenge value. -/
def handle_challenge (body : List (String × Value)) :
    Option (List (String × Value)) :=
  match alookup body "challenge" with
  | some v => some [("challenge", v)]
  | none => none

/-- `None`-aware injection of an optional value into the response dict. -/
def optValue (o : Option Value) : Value :=
  match o with
  | some v => v
  | none => Value.vnull

/-- `None`-aware injection of an optional string into the response dict. -/
def optStrValue (o : Option String) : Value :=
  match o with
  | some s => Value.vstr s
  | none => Value.vnull

/-- The success response dict of `handle_request`. -/
def success_response (r : CreateTicketResult) : List (String × Value) :=
  [("status", Value.vstr "success"), ("code", Value.vint 0),
   ("message", Value.vstr "工单创建成功"),
   ("data", Value.vdict
     [("ticket_id", optValue r.ticket_id),
      ("ticket_url", optStrValue r.ticket_url),
      ("ticket_type", optStrValue r.ticket_type),
      ("Story", if r.ticket_type = some "story" then
          Value.vdict [("id", optValue r.ticket_id)]
        else Value.vnull),
      ("Bug", if r.ticket_type = some "bug" then
          Value.vdict [("id", optValue r.ticket_id)]
        else Value.vnull)])]

/-- The error response dict of `handle_request`. -/
def error_response (r : CreateTicketResult) : List (String × Value) :=
  [("status", Value.vstr "error"), ("code", Value.vint (-1)),
   ("message", optStrValue r.error_message), ("data", Value.vnull)]

/-- `FeishuWebhookHandler.handle_request`: challenge pass-through, then
classify, create and shape the response. `Except.error` models the
unhandled exception of `parse_feishu_request` on a non-dict envelope
record. -/
def handle_request (submitS submitB : Submit) (submitT : SubmitTask)
    (cfg : TapdConf) (body : List (String × Value)) :
    Except PyErr (List (String × Value)) :=
  match handle_challenge body with
  | some resp => .ok resp
  | none =>
    match parse_feishu_request body with
    | none => .error attrError
    | some (t, record_data, _) =>
      let result := create_ticket submitS submitB submitT cfg t record_data
      .ok (if result.success then success_response result
        else error_response result)

/-! ## Specification-side definitions, used to compare the code with the
claims' wording (refinement statements and counterexamples). -/

/-- The claim's attachment resolution, amended to the code's key list:
consult the candidate keys in order and take the first whose value is
truthy. -/
def firstTruthy (d : List (String × Value)) : List String → Option Value
  | [] => none
  | k :: ks =>
    let v := pyGetD d k Value.vnull
    if pyTruthy v then some v else firstTruthy d ks

/-- The attachment-object extraction as the amended claim C3 words it:
resolve the first truthy value among `url`, `file_url`, `src` and keep it
when it is a string passing the image predicate (a truthy non-string
raises). -/
def attachment_extract_spec (d : List (String × Value)) :
    Except PyErr (List String) :=
  match firstTruthy d ["url", "file_url", "src"] with
  | some url => keepResolved url
  | none => .ok []

/-- Modelled from the spec (claim C7's wording): the path component of a
URL — what follows the host, i.e. everything from the first `/` after the
scheme, with the query string stripped. -/
def specUrlPath (url : String) : String :=
  let rest :=
    if strStartsWith url "http://" then String.mk (url.data.drop 7)
    else if strStartsWith url "https://" then String.mk (url.data.drop 8)
    else url
  let path := String.mk (rest.data.dropWhile (fun c => c ≠ '/'))
  beforeQuery path

/-- Claim C7's predicate exactly as stated: scheme check AND (extension
test on the query-stripped URL OR `image` as a substring of the *path*). -/
def claimC7_stated_pred (url : String) : Bool :=
  (strStartsWith url "http://" || strStartsWith url "https://") &&
    (image_extensions.any (fun ext =>
        strEndsWith (beforeQuery (pyLower url)) ext) ||
      strContains (pyLower (specUrlPath url)) "image")

/-- Claim C7 amended: the `image` substring test runs over the whole
lower-cased query-stripped URL (scheme and host included), not just the
path. -/
def claimC7_amended_pred (url : String) : Bool :=
  (strStartsWith url "http://" || strStartsWith url "https://") &&
    (let base := beforeQuery (pyLower url)
     (strEndsWith base ".png" || strEndsWith base ".jpg" ||
        strEndsWith base ".jpeg" || strEndsWith base ".gif" ||
        strEndsWith base ".bmp" || strEndsWith base ".webp" ||
        strEndsWith base ".svg") ||
      strContains base "image")

/-! ## Association-list dictionary lemmas -/

theorem alookup_nil {α : Type} (k : String) :
    alookup ([] : List (String × α)) k = none := rfl

theorem alookup_cons {α : Type} (k0 : String) (v0 : α)
    (d : List (String × α)) (k : String) :
    alookup ((k0, v0) :: d) k = if k0 = k then some v0 else alookup d k :=
  rfl

theorem alookup_isNone_iff {α : Type} (d : List (String × α)) (k : String) :
    acontains d k = false ↔ alookup d k = none := by
  simp [acontains, Option.isSome_iff_exists]

theorem aset_cons {α : Type} (k0 : String) (v0 : α) (d : List (String × α))
    (k : String) (v : α) :
    aset ((k0, v0) :: d) k v =
      if k0 = k then (k, v) :: d else (k0, v0) :: aset d k v := rfl

theorem alookup_aset_self {α : Type} (d : List (String × α)) (k : String)
    (v : α) : alookup (aset d k v) k = some v := by
  induction d with
  | nil => simp [aset, alookup]
  | cons p d ih =>
    obtain ⟨k0, v0⟩ := p
    rw [aset_cons]
    by_cases h0 : k0 = k
    · rw [if_pos h0, alookup_cons, if_pos rfl]
    · rw [if_neg h0, alookup_cons, if_neg h0]
      exact ih

theorem alookup_aset_of_ne {α : Type} (d : List (String × α)) (k : String)
    (v : α) (k' : String) (h : k ≠ k') :
    alookup (aset d k v) k' = alookup d k' := by
  induction d with
  | nil => simp [aset, alookup, h]
  | cons p d ih =>
    obtain ⟨k0, v0⟩ := p
    by_cases h0 : k0 = k
    · subst h0
      rw [aset_cons, if_pos rfl, alookup_cons, alookup_cons, if_neg h, if_neg h]
    · rw [aset_cons, if_neg h0, alookup_cons, alookup_cons, ih]

theorem acontains_aset_of_ne {α : Type} (d : List (String × α)) (k : String)
    (v : α) (k' : String) (h : k ≠ k') :
    acontains (aset d k v) k' = acontains d k' := by
  rw [acontains, acontains, alookup_aset_of_ne d k v k' h]

theorem countKey_cons {α : Type} (k0 : String) (v0 : α)
    (d : List (String × α)) (k : String) :
    countKey ((k0, v0) :: d) k =
      (if k0 = k then 1 else 0) + countKey d k := by
  simp only [countKey, List.filter_cons]
  by_cases h : k0 = k <;> simp [h, Nat.add_comm]

theorem countKey_eq_zero {α : Type} (d : List (String × α)) (k : String)
    (h : alookup d k = none) : countKey d k = 0 := by
  induction d with
  | nil => rfl
  | cons p d ih =>
    obtain ⟨k0, v0⟩ := p
    rw [alookup_cons] at h
    by_cases h0 : k0 = k
    · rw [if_pos h0] at h
      exact absurd h (by simp)
    · rw [if_neg h0] at h
      rw [countKey_cons, if_neg h0, ih h]

theorem countKey_aset_self {α : Type} (d : List (String × α)) (k : String)
    (v : α) (h : alookup d k = none) : countKey (aset d k v) k = 1 := by
  induction d with
  | nil => simp [aset, countKey]
  | cons p d ih =>
    obtain ⟨k0, v0⟩ := p
    rw [alookup_cons] at h
    by_cases h0 : k0 = k
    · rw [if_pos h0] at h
      exact absurd h (by simp)
    · rw [if_neg h0] at h
      rw [aset_cons, if_neg h0, countKey_cons, if_neg h0, ih h]

theorem countKey_aset_of_ne {α : Type} (d : List (String × α)) (k : String)
    (v : α) (k' : String) (h : k ≠ k') :
    countKey (aset d k v) k' = countKey d k' := by
  induction d with
  | nil => simp [aset, countKey, h]
  | cons p d ih =>
    obtain ⟨k0, v0⟩ := p
    by_cases h0 : k0 = k
    · subst h0
      rw [aset_cons, if_pos rfl, countKey_cons, countKey_cons, if_neg h]
    · rw [aset_cons, if_neg h0, countKey_cons, countKey_cons, ih]

theorem apopAll_cons {α : Type} (k0 : String) (v0 : α)
    (d : List (String × α)) (ks : List String) :
    apopAll ((k0, v0) :: d) ks =
      if ks.contains k0 then apopAll d ks else (k0, v0) :: apopAll d ks := by
  simp only [apopAll, List.filter_cons]
  cases h : ks.contains k0 <;> simp [h]

theorem alookup_apopAll {α : Type} (d : List (String × α))
    (ks : List String) (k : String) :
    alookup (apopAll d ks) k =
      if ks.contains k then none else alookup d k := by
  induction d with
  | nil => cases h : ks.contains k <;> simp [apopAll, alookup, h]
  | cons p d ih =>
    obtain ⟨k0, v0⟩ := p
    rw [apopAll_cons]
    by_cases h0 : ks.contains k0
    · rw [if_pos h0, ih, alookup_cons]
      by_cases hc : ks.contains k
      · rw [if_pos hc, if_pos hc]
      · have hne : k0 ≠ k := by
          intro he
          rw [he] at h0
          rw [h0] at hc
          exact hc rfl
        rw [if_neg hc, if_neg hc, if_neg hne]
    · rw [if_neg h0, alookup_cons, alookup_cons]
      by_cases h1 : k0 = k
      · subst h1
        rw [if_pos rfl]
        have hc : ks.contains k0 = false := by
          cases hx : ks.contains k0
          · rfl
          · exact absurd hx h0
        rw [if_neg (by rw [hc]; simp), if_pos rfl]
      · rw [if_neg h1, if_neg h1, ih]

theorem alookup_mem_values {α : Type} (l : List (String × α)) (k : String)
    (v : α) (h : alookup l k = some v) : v ∈ l.map Prod.snd := by
  induction l with
  | nil => simp [alookup] at h
  | cons p l ih =>
    obtain ⟨k0, v0⟩ := p
    rw [alookup_cons] at h
    by_cases h0 : k0 = k
    · rw [if_pos h0] at h
      injection h with h
      subst h
      simp
    · rw [if_neg h0] at h
      simp [ih h]

/-! ## Claim theorems -/

/-- Helper for C6: trimming every split piece and then filtering with the
image predicate is what the code's trim-and-keep loop computes (an empty
trimmed piece never passes the predicate). -/
theorem filterMap_trim_eq (l : List String) :
    l.filterMap keepPiece = (l.map pyStrip).filter is_image_url := by
  induction l with
  | nil => rfl
  | cons a l ih =>
    cases h : is_image_url (pyStrip a)
    · have h0 : keepPiece a = none := by
        simp [keepPiece, h]
      rw [List.filterMap_cons_none h0, List.map_cons, List.filter_cons]
      simp only [h, Bool.false_eq_true, if_false]
      exact ih
    · have hne : (pyStrip a != "") = true := by
        cases he : pyStrip a == ""
        · simp [bne, he]
        · have : pyStrip a = "" := eq_of_beq he
          rw [this] at h
          exact absurd h (by decide)
      have h0 : keepPiece a = some (pyStrip a) := by
        simp [keepPiece, h, hne]
      rw [List.filterMap_cons_some h0, List.map_cons, List.filter_cons]
      simp only [h, if_true]
      rw [ih]

/-- C4: the priority mapper trims the stringified value, returns the
vocabulary table's token on an exact match, and otherwise passes the
trimmed value through unchanged; in particular `高 → high`, `2 → high`,
and `unknown-label` is returned unchanged, and a record entry routed to a
priority target key stores the mapped token. -/
theorem claim_C4_priority_vocabulary :
    map_priority "高" = "high" ∧ map_priority "2" = "high" ∧
      map_priority "unknown-label" = "unknown-label" ∧
      (∀ v : String,
        map_priority v =
          (alookup priority_mapping (pyStrip v)).getD (pyStrip v)) ∧
      map_story_fields [("优先级", Value.vstr "高")] =
        .ok ([("priority_label", "high")], []) := by
  refine ⟨rfl, rfl, rfl, ?_, rfl⟩
  intro v
  simp only [map_priority]
  cases h : alookup priority_mapping (pyStrip v) <;> simp [h]

/-- C6: image extraction by value shape — a string is split on runs of
comma/semicolon/newline, each piece trimmed and kept iff it passes the
URL-is-image predicate; numbers, booleans and null yield the empty list;
and the three concrete examples from the spec. -/
theorem claim_C6_extract_by_shape :
    (∀ s, extract_image_urls (Value.vstr s) =
        .ok (((splitSeps s).map pyStrip).filter is_image_url)) ∧
      (∀ n : Int, extract_image_urls (Value.vint n) = .ok []) ∧
      (∀ b, extract_image_urls (Value.vbool b) = .ok []) ∧
      extract_image_urls Value.vnull = .ok [] ∧
      extract_image_urls
          (Value.vdict [("url", Value.vstr "https://x.com/a.png")]) =
        .ok ["https://x.com/a.png"] ∧
      extract_image_urls
          (Value.vstr "https://x.com/a.png,https://x.com/b.jpg") =
        .ok ["https://x.com/a.png", "https://x.com/b.jpg"] ∧
      extract_image_urls (Value.vint 123) = .ok [] := by
  refine ⟨?_, fun n => rfl, fun b => rfl, rfl, rfl, rfl, rfl⟩
  intro s
  simp only [extract_image_urls]
  rw [filterMap_trim_eq]

/-- C7 counterexample: the code accepts a non-image URL whose *host*
contains `image` (`_is_image_url` tests the whole lower-cased
query-stripped URL), while the claim's predicate — `image` in the path
only — rejects it. -/
theorem claim_C7_counterexample :
    is_image_url "https://image.example.com/a.txt" = true ∧
      claimC7_stated_pred "https://image.example.com/a.txt" = false :=
  ⟨rfl, rfl⟩

/-- C7 amended: the predicate accepts a string iff it starts with
`http://` or `https://` AND (after stripping any query string it ends
case-insensitively with one of the image extensions, OR the lower-cased
query-stripped URL — scheme and host included — contains the substring
`image`). -/
theorem claim_C7_amended_predicate :
    ∀ url, is_image_url url = claimC7_amended_pred url := by
  intro url
  simp only [is_image_url, claimC7_amended_pred, image_extensions,
    List.any_cons, List.any_nil]
  cases h : strStartsWith url "http://" || strStartsWith url "https://" <;>
    simp [h, Bool.or_assoc]

/-- C8: value cleaning by shape — strings are trimmed, numbers are
stringified, a single-element list unwraps to its stringified trimmed
element, a multi-element list joins its truthy elements' trimmed
stringifications with `|`, and any other shape is stringified as-is. -/
theorem claim_C8_clean_value :
    (∀ s, clean_value (Value.vstr s) = pyStrip s) ∧
      (∀ n : Int, clean_value (Value.vint n) = pyStr (Value.vint n)) ∧
      (∀ x, clean_value (Value.vlist [x]) = pyStrip (pyStr x)) ∧
      (∀ x y rest, clean_value (Value.vlist (x :: y :: rest)) =
        String.intercalate "|"
          (((x :: y :: rest).filter pyTruthy).map fun v => pyStrip (pyStr v))) ∧
      (∀ b, clean_value (Value.vbool b) = pyStr (Value.vbool b)) ∧
      clean_value Value.vnull = pyStr Value.vnull ∧
      (∀ d, clean_value (Value.vdict d) = pyStr (Value.vdict d)) :=
  ⟨fun _ => rfl, fun _ => rfl, fun _ => rfl, fun _ _ _ => rfl,
    fun _ => rfl, rfl, fun _ => rfl⟩

/-- C3 counterexample: an attachment object carrying only `tmp_url` (with
a URL the predicate accepts) yields nothing in the field-mapping
pipeline's extractor — `tmp_url` is not among its candidate keys. -/
theorem claim_C3_counterexample :
    is_image_url "https://x.com/a.png" = true ∧
      extract_image_urls
          (Value.vdict [("tmp_url", Value.vstr "https://x.com/a.png")]) =
        .ok [] :=
  ⟨rfl, rfl⟩

/-- Helper for C3: the or-chain over `url`/`file_url`/`src` equals the
first-truthy-key resolution of the amended claim. -/
theorem extractFromAttachment_eq_spec (d : List (String × Value)) :
    extractFromAttachment d = attachment_extract_spec d := by
  simp only [extractFromAttachment, attachment_extract_spec, firstTruthy,
    pyOr]
  cases ha : pyTruthy (pyGetD d "url" Value.vnull) <;>
    cases hb : pyTruthy (pyGetD d "file_url" Value.vnull) <;>
      cases hc : pyTruthy (pyGetD d "src" Value.vnull) <;>
        simp [ha, hb, hc]

/-- C3 amended: in the field-mapping pipeline (both for a single dict
value and for a dict element of a list), the attachment URL is resolved
by consulting `url`, `file_url`, `src` in that fixed order and taking the
first key whose value is truthy (a present key with a falsy value is
skipped); `tmp_url` is not consulted. -/
theorem claim_C3_amended_resolution :
    (∀ d, extract_image_urls (Value.vdict d) = attachment_extract_spec d) ∧
      ∀ d rest, extractFromList (Value.vdict d :: rest) = (do
        let here ← attachment_extract_spec d
        let there ← extractFromList rest
        pure (here ++ there)) := by
  constructor
  · intro d
    exact extractFromAttachment_eq_spec d
  · intro d rest
    simp only [extractFromList]
    rw [extractFromAttachment_eq_spec]

/-- C1 counterexample: a payload with no type-hint key at all but with
the title-equivalent label `标题` is classified `story`, not `bug` — the
absent hint defaults to `story`, which is a recognized synonym, so the
title heuristic is never consulted. -/
theorem claim_C1_counterexample :
    (parse_feishu_request [("标题", Value.vstr "x")]).map (fun p => p.1) =
        some "story" ∧
      some "story" ≠ some "bug" :=
  ⟨rfl, by decide⟩

/-- C1 amended: when no type-hint key is present (in the direct payload
or at the envelope level), classification always yields `story`,
regardless of the record's labels; the title heuristic (`bug` when a
title-equivalent label is present, else `story`) applies only when a hint
key is present with an unrecognized value. -/
theorem claim_C1_absent_hint :
    (∀ body : List (String × Value),
      alookup body "record" = none → alookup body "ticket_type" = none →
      alookup body "type" = none → alookup body "类型" = none →
      (parse_feishu_request body).map (fun p => p.1) = some "story") ∧
      (∀ body inner, alookup body "record" = some (Value.vdict inner) →
        alookup body "ticket_type" = none → alookup body "type" = none →
        (parse_feishu_request body).map (fun p => p.1) = some "story") ∧
      (∀ body hint, alookup body "record" = none →
        alookup body "ticket_type" = some hint →
        story_synonyms.contains (pyLower (pyStr hint)) = false →
        bug_synonyms.contains (pyLower (pyStr hint)) = false →
        task_synonyms.contains (pyLower (pyStr hint)) = false →
        (parse_feishu_request body).map (fun p => p.1) =
          some (if acontains body "标题" || acontains body "title"
            then "bug" else "story")) := by
  refine ⟨?_, ?_, ?_⟩
  · intro body h0 h1 h2 h3
    simp only [parse_feishu_request, pyGetD, h0, h1, h2, h3, Option.map]
    rfl
  · intro body inner h0 h1 h2
    simp only [parse_feishu_request, pyGetD, h0, h1, h2, Option.map]
    rfl
  · intro body hint h0 h1 h4 h5 h6
    simp only [parse_feishu_request, pyGetD, h0, h1, Option.map]
    simp at h4 h5 h6
    simp [classify_hint, h4, h5, h6]

/-- C1 witness: concrete instances of the amended claim — hint absent
(direct and envelope) gives `story`; an unrecognized present hint with a
title label gives `bug`. -/
theorem claim_C1_absent_hint_witness :
    (parse_feishu_request [("a", Value.vstr "b")]).map (fun p => p.1) =
        some "story" ∧
      (parse_feishu_request
          [("record", Value.vdict [("标题", Value.vstr "T")])]).map
          (fun p => p.1) =
        some "story" ∧
      (parse_feishu_request [("ticket_type", Value.vstr "zzz"),
          ("标题", Value.vstr "x")]).map (fun p => p.1) = some "bug" := by
  refine ⟨claim_C1_absent_hint.1 _ rfl rfl rfl rfl,
    claim_C1_absent_hint.2.1 _ [("标题", Value.vstr "T")] rfl rfl rfl, ?_⟩
  have h := claim_C1_absent_hint.2.2
    [("ticket_type", Value.vstr "zzz"), ("标题", Value.vstr "x")]
    (Value.vstr "zzz") rfl rfl rfl rfl rfl
  exact h.trans (by rfl)

/-- C9: a payload containing a `challenge` key is answered immediately
with a single-entry response echoing the same value, for every
submission oracle and configuration — no classification, mapping,
building or submission takes place. -/
theorem claim_C9_challenge :
    ∀ (submitS submitB : Submit) (submitT : SubmitTask) (cfg : TapdConf)
      (body : List (String × Value)) (v : Value),
      alookup body "challenge" = some v →
      handle_request submitS submitB submitT cfg body =
        .ok [("challenge", v)] := by
  intro submitS submitB submitT cfg body v h
  simp only [handle_request, handle_challenge, h]

/-- C9 witness: the challenge answer is produced even when every oracle
fails and the envelope record is malformed (classification would raise). -/
theorem claim_C9_challenge_witness :
    handle_request (fun _ => .error "down") (fun _ => .error "down")
        (fun _ _ _ => .error "down") ⟨"41827997", "https://www.tapd.cn"⟩
        [("challenge", Value.vstr "abc"), ("record", Value.vstr "oops")] =
      .ok [("challenge", Value.vstr "abc")] :=
  claim_C9_challenge _ _ _ _ _ _ rfl

/-- C10: classification mutates its input in place — for every payload
the type-hint keys (`ticket_type`, `type`, `类型`) are removed from the
working record the caller passed in. In the direct case the working
record is the caller's dict itself, and the hint keys are popped from it
as a side effect; in the envelope case they are removed from the inner
record object itself, even when the hint was read from the envelope, and
the caller's dictionary reflects the change through aliasing (its
`record` entry now holds the stripped record, while its other keys,
including an envelope-level hint, are untouched). -/
theorem claim_C10_mutation :
    (∀ body : List (String × Value), alookup body "record" = none →
      parse_feishu_request body =
          some (classify_hint
              (pyGetD body "ticket_type" (pyGetD body "type"
                (pyGetD body "类型" (Value.vstr "story")))) body,
            apopAll body hint_fields, apopAll body hint_fields) ∧
        (∀ k, hint_fields.contains k = true →
          alookup (apopAll body hint_fields) k = none) ∧
        (∀ k, hint_fields.contains k = false →
          alookup (apopAll body hint_fields) k = alookup body k)) ∧
      ∀ (body inner : List (String × Value)),
        alookup body "record" = some (Value.vdict inner) →
        parse_feishu_request body =
            some (classify_hint
                (pyGetD body "ticket_type"
                  (pyGetD body "type" (Value.vstr "story"))) inner,
              apopAll inner hint_fields,
              aset body "record"
                (Value.vdict (apopAll inner hint_fields))) ∧
          (∀ k, hint_fields.contains k = true →
            alookup (apopAll inner hint_fields) k = none) ∧
          (∀ k, hint_fields.contains k = false →
            alookup (apopAll inner hint_fields) k = alookup inner k) ∧
          alookup
              (aset body "record"
                (Value.vdict (apopAll inner hint_fields)))
              "record" =
            some (Value.vdict (apopAll inner hint_fields)) ∧
          (∀ k, k ≠ "record" →
            alookup
                (aset body "record"
                  (Value.vdict (apopAll inner hint_fields))) k =
              alookup body k) := by
  constructor
  · intro body h
    refine ⟨?_, ?_, ?_⟩
    · simp only [parse_feishu_request, h]
    · intro k hk
      rw [alookup_apopAll, if_pos hk]
    · intro k hk
      have hn : ¬ (hint_fields.contains k = true) := by
        rw [hk]
        exact Bool.false_ne_true
      rw [alookup_apopAll, if_neg hn]
  · intro body inner h
    refine ⟨?_, ?_, ?_, ?_, ?_⟩
    · simp only [parse_feishu_request, h]
    · intro k hk
      rw [alookup_apopAll, if_pos hk]
    · intro k hk
      have hn : ¬ (hint_fields.contains k = true) := by
        rw [hk]
        exact Bool.false_ne_true
      rw [alookup_apopAll, if_neg hn]
    · exact alookup_aset_self body "record" _
    · intro k hk
      exact alookup_aset_of_ne body "record" _ k (Ne.symm hk)

/-- C10 witness: a direct payload whose `type` hint is popped from the
caller's dict itself, and a concrete envelope whose inner record carries
a `type` hint while the envelope carries a `ticket_type` hint — after
the call the inner record has lost its hint key while the envelope-level
hint key survives in the returned body. -/
theorem claim_C10_mutation_witness :
    parse_feishu_request
        [("type", Value.vstr "bug"), ("标题", Value.vstr "T")] =
        some ("bug", [("标题", Value.vstr "T")],
          [("标题", Value.vstr "T")]) ∧
      parse_feishu_request
          [("record", Value.vdict
              [("type", Value.vstr "bug"), ("标题", Value.vstr "T")]),
            ("ticket_type", Value.vstr "story")] =
        some ("story", [("标题", Value.vstr "T")],
          [("record", Value.vdict [("标题", Value.vstr "T")]),
            ("ticket_type", Value.vstr "story")]) := by
  constructor
  · have h := (claim_C10_mutation.1
      [("type", Value.vstr "bug"), ("标题", Value.vstr "T")] rfl).1
    exact h.trans (by rfl)
  · have h := (claim_C10_mutation.2
      [("record", Value.vdict
          [("type", Value.vstr "bug"), ("标题", Value.vstr "T")]),
        ("ticket_type", Value.vstr "story")]
      [("type", Value.vstr "bug"), ("标题", Value.vstr "T")] rfl).1
    exact h.trans (by rfl)

/-- C2: when the mapped fields lack a non-empty mandatory
title-equivalent (`name` for story, `title` for bug), the build fails
with the validation `ValueError` for every `embedImages` flag, and the
orchestration reports the validation failure identically for every
submission oracle — no external call influences the result. -/
theorem claim_C2_validation :
    (∀ (cfg : TapdConf) (inc : Bool) (r : List (String × Value))
      (tapd : List (String × String)) (imgs : List String),
      map_story_fields r = .ok (tapd, imgs) →
      ((alookup tapd "name").isNone ∨ alookup tapd "name" = some "") →
      build_story cfg.workspace_id r inc =
          .error (.valueError title_error_story) ∧
        ∀ submit : Submit, create_story_op submit cfg r =
          { success := false,
            error_message :=
              some ("数据验证失败: " ++ title_error_story) }) ∧
      ∀ (cfg : TapdConf) (inc : Bool) (r : List (String × Value))
        (tapd : List (String × String)) (imgs : List String),
        map_bug_fields r = .ok (tapd, imgs) →
        ((alookup tapd "title").isNone ∨ alookup tapd "title" = some "") →
        build_bug cfg.workspace_id r inc =
            .error (.valueError title_error_bug) ∧
          ∀ submit : Submit, create_bug_op submit cfg r =
            { success := false,
              error_message :=
                some ("数据验证失败: " ++ title_error_bug) } := by
  constructor
  · intro cfg inc r tapd imgs hmap hname
    have hbuild : ∀ b : Bool, build_story cfg.workspace_id r b =
        .error (.valueError title_error_story) := by
      intro b
      simp only [build_story, hmap]
      rw [if_pos hname]
    refine ⟨hbuild inc, fun submit => ?_⟩
    simp only [create_story_op, hbuild true]
  · intro cfg inc r tapd imgs hmap hname
    have hbuild : ∀ b : Bool, build_bug cfg.workspace_id r b =
        .error (.valueError title_error_bug) := by
      intro b
      simp only [build_bug, hmap]
      rw [if_pos hname]
    refine ⟨hbuild inc, fun submit => ?_⟩
    simp only [create_bug_op, hbuild true]

/-- Helper for C5: a resolved story target key comes from the field-name
table's values or from the allow-list. -/
theorem resolveStoryField_mem (ff tf : String)
    (h : resolveStoryField ff = some tf) :
    tf ∈ story_field_mapping.map Prod.snd ∨
      story_passthrough.contains tf = true := by
  unfold resolveStoryField at h
  split at h
  · rename_i t ha
    injection h with h
    subst h
    exact Or.inl (alookup_mem_values _ _ _ ha)
  · by_cases hc : story_passthrough.contains ff
    · rw [if_pos hc] at h
      injection h with h
      subst h
      exact Or.inr hc
    · rw [if_neg hc] at h
      exact Option.noConfusion h

/-- Helper for C5: a resolved bug target key comes from the field-name
table's values or from the allow-list. -/
theorem resolveBugField_mem (ff tf : String)
    (h : resolveBugField ff = some tf) :
    tf ∈ bug_field_mapping.map Prod.snd ∨
      bug_passthrough.contains tf = true := by
  unfold resolveBugField at h
  split at h
  · rename_i t ha
    injection h with h
    subst h
    exact Or.inl (alookup_mem_values _ _ _ ha)
  · by_cases hc : bug_passthrough.contains ff
    · rw [if_pos hc] at h
      injection h with h
      subst h
      exact Or.inr hc
    · rw [if_neg hc] at h
      exact Option.noConfusion h

/-- Helper for C5: the category interception only writes the keys
`workitem_type_id` and `label`. -/
theorem storyCategoryStep_preserves (tapd : List (String × String))
    (label k : String) (hk3 : k ≠ "workitem_type_id") (hk4 : k ≠ "label") :
    alookup (storyCategoryStep tapd label) k = alookup tapd k := by
  unfold storyCategoryStep
  cases hg : get_type_id label <;> simp only [hg]
  · split
    · rw [alookup_aset_of_ne _ _ _ _ (Ne.symm hk4)]
    · rfl
  · split
    · rw [alookup_aset_of_ne _ _ _ _ (Ne.symm hk4),
        alookup_aset_of_ne _ _ _ _ (Ne.symm hk3)]
    · rw [alookup_aset_of_ne _ _ _ _ (Ne.symm hk3)]

/-- Helper for C5: the story mapper loop never creates an entry under a
key outside the table's values, the allow-list, and the special keys
`workitem_type_id`/`label`. -/
theorem mapStoryGo_keeps_missing (k : String)
    (hk1 : ¬ k ∈ story_field_mapping.map Prod.snd)
    (hk2 : story_passthrough.contains k = false)
    (hk3 : k ≠ "workitem_type_id") (hk4 : k ≠ "label") :
    ∀ (entries : List (String × Value)) (tapd : List (String × String))
      (imgs : List String) (tapd2 : List (String × String))
      (imgs2 : List String),
      mapStoryGo entries tapd imgs = .ok (tapd2, imgs2) →
      alookup tapd k = none → alookup tapd2 k = none := by
  intro entries
  induction entries with
  | nil =>
    intro tapd imgs tapd2 imgs2 h h0
    simp only [mapStoryGo] at h
    injection h with h
    injection h with h1 h2
    rw [← h1]
    exact h0
  | cons e rest ih =>
    obtain ⟨ff, v⟩ := e
    intro tapd imgs tapd2 imgs2 h h0
    simp only [mapStoryGo] at h
    split at h
    · exact ih _ _ _ _ h h0
    · split at h
      · exact ih _ _ _ _ h h0
      · rename_i tf htf
        have htfk : tf ≠ k := by
          intro he
          subst he
          rcases resolveStoryField_mem ff tf htf with hm | hm
          · exact hk1 hm
          · rw [hm] at hk2
            exact Bool.noConfusion hk2
        split at h
        · split at h
          · exact Except.noConfusion h
          · exact ih _ _ _ _ h h0
        · split at h
          · refine ih _ _ _ _ h ?_
            rw [storyCategoryStep_preserves _ _ _ hk3 hk4]
            exact h0
          · refine ih _ _ _ _ h ?_
            rw [alookup_aset_of_ne _ _ _ _ htfk]
            exact h0

/-- Helper for C5: the bug mapper loop never creates an entry under a key
outside the table's values and the allow-list. -/
theorem mapBugGo_keeps_missing (k : String)
    (hk1 : ¬ k ∈ bug_field_mapping.map Prod.snd)
    (hk2 : bug_passthrough.contains k = false) :
    ∀ (entries : List (String × Value)) (tapd : List (String × String))
      (imgs : List String) (tapd2 : List (String × String))
      (imgs2 : List String),
      mapBugGo entries tapd imgs = .ok (tapd2, imgs2) →
      alookup tapd k = none → alookup tapd2 k = none := by
  intro entries
  induction entries with
  | nil =>
    intro tapd imgs tapd2 imgs2 h h0
    simp only [mapBugGo] at h
    injection h with h
    injection h with h1 h2
    rw [← h1]
    exact h0
  | cons e rest ih =>
    obtain ⟨ff, v⟩ := e
    intro tapd imgs tapd2 imgs2 h h0
    simp only [mapBugGo] at h
    split at h
    · exact ih _ _ _ _ h h0
    · split at h
      · exact ih _ _ _ _ h h0
      · rename_i tf htf
        have htfk : tf ≠ k := by
          intro he
          subst he
          rcases resolveBugField_mem ff tf htf with hm | hm
          · exact hk1 hm
          · rw [hm] at hk2
            exact Bool.noConfusion hk2
        split at h
        · split at h
          · exact Except.noConfusion h
          · exact ih _ _ _ _ h h0
        · refine ih _ _ _ _ h ?_
          rw [alookup_aset_of_ne _ _ _ _ htfk]
          exact h0

/-- C5: every successful build result (story and bug) carries the
`workspace_id` entry exactly once, and its value is the configured
workspace identifier — independent of anything in the caller's record. -/
theorem claim_C5_workspace_injection :
    (∀ (ws : String) (inc : Bool) (r : List (String × Value))
      (tapd : List (String × String)) (imgs : List String),
      build_story ws r inc = .ok (tapd, imgs) →
      alookup tapd "workspace_id" = some ws ∧
        countKey tapd "workspace_id" = 1) ∧
      ∀ (ws : String) (inc : Bool) (r : List (String × Value))
        (tapd : List (String × String)) (imgs : List String),
        build_bug ws r inc = .ok (tapd, imgs) →
        alookup tapd "workspace_id" = some ws ∧
          countKey tapd "workspace_id" = 1 := by
  constructor
  · intro ws inc r tapd imgs h
    simp only [build_story] at h
    split at h
    · exact Except.noConfusion h
    · rename_i tapd0 image_urls hmap
      have h0 : alookup tapd0 "workspace_id" = none :=
        mapStoryGo_keeps_missing "workspace_id" (by decide) (by decide)
          (by decide) (by decide) r [] [] tapd0 image_urls hmap rfl
      split at h
      · exact Except.noConfusion h
      · injection h with h
        injection h with h1 h2
        subst h1
        constructor
        · split
          · split
            · rw [alookup_aset_of_ne _ _ _ _
                (by decide : "description" ≠ "workspace_id")]
              exact alookup_aset_self _ _ _
            · rw [alookup_aset_of_ne _ _ _ _
                (by decide : "description" ≠ "workspace_id")]
              exact alookup_aset_self _ _ _
          · exact alookup_aset_self _ _ _
        · split
          · split
            · rw [countKey_aset_of_ne _ _ _ _
                (by decide : "description" ≠ "workspace_id")]
              exact countKey_aset_self _ _ _ h0
            · rw [countKey_aset_of_ne _ _ _ _
                (by decide : "description" ≠ "workspace_id")]
              exact countKey_aset_self _ _ _ h0
          · exact countKey_aset_self _ _ _ h0
  · intro ws inc r tapd imgs h
    simp only [build_bug] at h
    split at h
    · exact Except.noConfusion h
    · rename_i tapd0 image_urls hmap
      have h0 : alookup tapd0 "workspace_id" = none :=
        mapBugGo_keeps_missing "workspace_id" (by decide) (by decide)
          r [] [] tapd0 image_urls hmap rfl
      split at h
      · exact Except.noConfusion h
      · injection h with h
        injection h with h1 h2
        subst h1
        constructor
        · split
          · split
            · rw [alookup_aset_of_ne _ _ _ _
                (by decide : "description" ≠ "workspace_id")]
              exact alookup_aset_self _ _ _
            · rw [alookup_aset_of_ne _ _ _ _
                (by decide : "description" ≠ "workspace_id")]
              exact alookup_aset_self _ _ _
          · exact alookup_aset_self _ _ _
        · split
          · split
            · rw [countKey_aset_of_ne _ _ _ _
                (by decide : "description" ≠ "workspace_id")]
              exact countKey_aset_self _ _ _ h0
            · rw [countKey_aset_of_ne _ _ _ _
                (by decide : "description" ≠ "workspace_id")]
              exact countKey_aset_self _ _ _ h0
          · exact countKey_aset_self _ _ _ h0

/-- C5 witness: a one-field record builds (story and bug) into fields
holding exactly one `workspace_id`, valued from the configuration. -/
theorem claim_C5_workspace_injection_witness :
    (alookup [("name", "T"), ("workspace_id", "WS")] "workspace_id" =
        some "WS" ∧
      countKey [("name", "T"), ("workspace_id", "WS")] "workspace_id" =
        1) ∧
      alookup [("title", "T"), ("workspace_id", "WS")] "workspace_id" =
          some "WS" ∧
        countKey [("title", "T"), ("workspace_id", "WS")]
          "workspace_id" = 1 :=
  ⟨claim_C5_workspace_injection.1 "WS" true [("标题", Value.vstr "T")]
      _ _ rfl,
    claim_C5_workspace_injection.2 "WS" true [("标题", Value.vstr "T")]
      _ _ rfl⟩

/-- C2 witness: the empty record maps to empty fields, so both builders
fail with the validation error and both orchestration paths report it,
with an oracle that would otherwise succeed. -/
theorem claim_C2_validation_witness :
    build_story "41827997" [] true = .error (.valueError title_error_story) ∧
      create_story_op (fun _ => .ok [("id", Value.vstr "1")])
          ⟨"41827997", "https://www.tapd.cn"⟩ [] =
        { success := false,
          error_message := some ("数据验证失败: " ++ title_error_story) } ∧
      build_bug "41827997" [] true = .error (.valueError title_error_bug) ∧
      create_bug_op (fun _ => .ok [("id", Value.vstr "1")])
          ⟨"41827997", "https://www.tapd.cn"⟩ [] =
        { success := false,
          error_message := some ("数据验证失败: " ++ title_error_bug) } := by
  have hs := claim_C2_validation.1 ⟨"41827997", "https://www.tapd.cn"⟩
    true [] [] [] rfl (Or.inl rfl)
  have hb := claim_C2_validation.2 ⟨"41827997", "https://www.tapd.cn"⟩
    true [] [] [] rfl (Or.inl rfl)
  exact ⟨hs.1, hs.2 _, hb.1, hb.2 _⟩

end CreateTask
